import Mathlib

/-!
Verification of the CyberSec_Using_AI repository's analyzer specification.

The repository's source under version control here contains the React
frontend (`App.js`, `components/Dashboard.jsx`, `components/SimulationDetails.jsx`,
`utils/api.js`) and the project README.  The backend analyzer engine
(rule evaluators, deduplicator, scorer, action simulator) is not among
the checked-in sources, so it is modelled from the specification
(spec.md sections 3, 4 and 7) below; definitions that embed frontend
code are translated directly from the JSX sources.
-/

namespace CyberSim

/-! ## String helpers (structural recursion, kernel-reducible) -/

/-- Boolean test that `pat` is a leading segment of `l` (character lists). -/
def listLeads : List Char → List Char → Bool
  | [], _ => true
  | _ :: _, [] => false
  | a :: as, b :: bs => a == b && listLeads as bs

/-- Boolean substring search on character lists. -/
def listHasSub (pat : List Char) : List Char → Bool
  | [] => listLeads pat []
  | c :: rest => listLeads pat (c :: rest) || listHasSub pat rest

/-- `containsSub s pat` is true when `pat` occurs inside `s`. -/
def containsSub (s pat : String) : Bool := listHasSub pat.toList s.toList

/-- `strStartsWith s pat` is true when `s` begins with `pat`. -/
def strStartsWith (s pat : String) : Bool := listLeads pat.toList s.toList

/-- Characters after the last dot of a path (extension category). -/
def afterLastDot : List Char → List Char → List Char
  | [], acc => acc
  | c :: rest, acc => if c == '.' then afterLastDot rest [] else afterLastDot rest (acc ++ [c])

/-- File-extension category of a path (text after the last dot). -/
def extOf (path : String) : String := ⟨afterLastDot path.toList []⟩

/-! ## Data model

Modelled from the spec: spec.md section 3 (Telemetry, Policy, Indicator,
TimelineEvent, BlockedAction, AnalysisResult, DedupeEntry) and the README's
data-model listing. Timestamps that take part in dedupe-window arithmetic
are integers (minutes); risk scores and confidence are exact rationals. -/

/-- Severity of an indicator, totally ordered low < medium < high < critical. -/
inductive Severity
  | low | medium | high | critical
deriving DecidableEq

/-- Modelled from the spec: numeric severity weights low=1, medium=3, high=6, critical=9. -/
def Severity.weight : Severity → Nat
  | .low => 1
  | .medium => 3
  | .high => 6
  | .critical => 9

/-- Boolean test that a severity is at least `high` (for the action simulator). -/
def Severity.atLeastHigh : Severity → Bool
  | .high => true
  | .critical => true
  | _ => false

/-- The fixed enumeration of detection rule identifiers (spec section 4.1, README). -/
inductive RuleId
  | PROC_SCRIPT | NET_ADMIN_PORT | NET_LARGE_XFER | NET_SUSP_DOMAIN
  | PROC_HIGH_NET | FILE_MASS | FILE_SENSITIVE
deriving DecidableEq

/-- One network connection record of the telemetry. -/
structure NetworkConnection where
  source_ip : String
  destination_ip : String
  destination_port : Nat
  protocol : String
  bytes_transferred : Int
  destination_domain : Option String := none
deriving DecidableEq

/-- One process record of the telemetry. -/
structure ProcessInfo where
  name : String
  pid : Nat
  command_line : String
  network_connections : Nat
deriving DecidableEq

/-- One file-access record of the telemetry. -/
structure FileAccess where
  process_id : Nat
  file_path : String
  operation : String
  timestamp : String
deriving DecidableEq

/-- Device telemetry: the analyzer's main input (spec section 3, README). -/
structure Telemetry where
  device_id : String
  timestamp : String
  network_connections : List NetworkConnection
  process_list : List ProcessInfo
  file_access_logs : List FileAccess
  system_metrics : List (String × ℚ)
  security_events : List String
deriving DecidableEq

/-- Tunable policy snapshot consumed by every evaluator (spec section 3, README). -/
structure Policy where
  allow_domains : List String
  allow_processes : List String
  allow_paths : List String
  high_volume_threshold : Int
  process_conn_threshold : Int
  dedupe_window_minutes : Int
  alert_risk_threshold : ℚ
deriving DecidableEq

/-- A rule-triggered finding. `discriminant` is the rule's dedupe
discriminating attribute (domain, path, process name, ...). -/
structure Indicator where
  rule_id : RuleId
  severity : Severity
  description : String
  discriminant : String
  pid : Option Nat := none
deriving DecidableEq

/-- A timeline entry: integer timestamp plus free-text event description. -/
structure TimelineEvent where
  ts : Int
  event : String
deriving DecidableEq

/-- Kinds of simulated enforcement actions. -/
inductive ActionKind
  | kill_process | suspend_io
deriving DecidableEq

/-- A simulated enforcement directive; never executed (spec section 4.4). -/
structure BlockedAction where
  action : ActionKind
  pid : Option Nat
  reason : String
  simulated : Bool := true
deriving DecidableEq

/-- The analyzer's immutable output value (spec section 3). -/
structure AnalysisResult where
  risk_score : ℚ
  confidence_level : ℚ
  indicators : List Indicator
  timeline : List TimelineEvent
  blocked_actions : List BlockedAction
  recommendations : List String
  alert : Bool
  suppressed : Bool
  analyzer_version : String
deriving DecidableEq

/-! ## Rule evaluators

Modelled from the spec: section 4.1's rule table. The spec leaves the exact
suspicious-domain / dangerous-flag pattern lists open (section 9, "Open
question"), so concrete pattern sets are chosen here, matching the README's
examples (PowerShell with bypass/encoded flags, `.biz` style domains). -/

/-- Scripting-interpreter pattern on a command line. -/
def isScriptInterpreter (cmd : String) : Bool :=
  containsSub cmd "powershell" || containsSub cmd "cmd.exe" ||
  containsSub cmd "bash" || containsSub cmd "wscript"

/-- Dangerous-flag pattern (bypass / encoded-command / hidden-window flags). -/
def isDangerousFlag (cmd : String) : Bool :=
  containsSub cmd "Bypass" || containsSub cmd "-enc" ||
  containsSub cmd "-EncodedCommand" || containsSub cmd "hidden"

/-- PROC_SCRIPT: scripting interpreter + dangerous flags, process not allow-listed. -/
def evalProcScript (t : Telemetry) (p : Policy) : List Indicator :=
  (t.process_list.filter (fun pr =>
      isScriptInterpreter pr.command_line && isDangerousFlag pr.command_line &&
      !(p.allow_processes.contains pr.name))).map
    (fun pr =>
      { rule_id := .PROC_SCRIPT, severity := .high
        description := "Suspicious script interpreter with dangerous flags: " ++ pr.command_line
        discriminant := pr.name
        pid := some pr.pid })

/-- The fixed admin-port set (spec: e.g. 22, 3389, 5985/5986). -/
def adminPorts : List Nat := [22, 3389, 5985, 5986]

/-- Private (RFC1918-style) destination address test. -/
def isPrivateIp (ip : String) : Bool :=
  strStartsWith ip "10." || strStartsWith ip "192.168." || strStartsWith ip "172.16."

/-- NET_ADMIN_PORT: admin destination port within a private range, not allow-listed. -/
def evalNetAdminPort (t : Telemetry) (p : Policy) : List Indicator :=
  (t.network_connections.filter (fun c =>
      adminPorts.contains c.destination_port && isPrivateIp c.destination_ip &&
      !(p.allow_domains.contains (c.destination_domain.getD c.destination_ip)))).map
    (fun c =>
      { rule_id := .NET_ADMIN_PORT, severity := .medium
        description := "Admin port access inside private range: port " ++
          toString c.destination_port ++ " at " ++ c.destination_ip
        discriminant := c.destination_ip })

/-- NET_LARGE_XFER: bytes transferred exceed `policy.high_volume_threshold`. -/
def evalNetLargeXfer (t : Telemetry) (p : Policy) : List Indicator :=
  (t.network_connections.filter (fun c =>
      p.high_volume_threshold < c.bytes_transferred)).map
    (fun c =>
      { rule_id := .NET_LARGE_XFER, severity := .high
        description := "Large data transfer to " ++ c.destination_ip
        discriminant := c.destination_ip })

/-- Suspicious lexical pattern on a destination domain (keyword/TLD heuristics). -/
def isSuspiciousDomain (d : String) : Bool :=
  containsSub d "malicious" || containsSub d "temp-" ||
  containsSub d ".biz" || containsSub d ".xyz" || containsSub d ".top"

/-- NET_SUSP_DOMAIN: suspicious destination domain not in `allow_domains`. -/
def evalSuspDomain (t : Telemetry) (p : Policy) : List Indicator :=
  (t.network_connections.filter (fun c =>
      match c.destination_domain with
      | some d => isSuspiciousDomain d && !(p.allow_domains.contains d)
      | none => false)).map
    (fun c =>
      { rule_id := .NET_SUSP_DOMAIN, severity := .medium
        description := "Suspicious domain: " ++ c.destination_domain.getD ""
        discriminant := c.destination_domain.getD "" })

/-- PROC_HIGH_NET: per-process connection count exceeds the policy threshold. -/
def evalProcHighNet (t : Telemetry) (p : Policy) : List Indicator :=
  (t.process_list.filter (fun pr =>
      p.process_conn_threshold < (pr.network_connections : Int))).map
    (fun pr =>
      { rule_id := .PROC_HIGH_NET, severity := .medium
        description := "High process network activity: " ++ pr.name ++ " with " ++
          toString pr.network_connections ++ " connections"
        discriminant := pr.name
        pid := some pr.pid })

/-- Fixed burst threshold for FILE_MASS (distinct extension categories). -/
def fileMassBurstThreshold : Nat := 3

/-- Distinct extension categories touched by process `pid` in the batch. -/
def extCategoriesOf (logs : List FileAccess) (pid : Nat) : List String :=
  ((logs.filter (fun f => f.process_id == pid)).map (fun f => extOf f.file_path)).dedup

/-- FILE_MASS: one process touches more distinct extension categories than the
fixed burst threshold (ransomware-like multi-type access). -/
def evalFileMass (t : Telemetry) (_p : Policy) : List Indicator :=
  (((t.file_access_logs.map (fun f => f.process_id)).dedup).filter
      (fun pid => fileMassBurstThreshold < (extCategoriesOf t.file_access_logs pid).length)).map
    (fun pid =>
      { rule_id := .FILE_MASS, severity := .critical
        description := "Mass multi-type file access by process " ++ toString pid
        discriminant := toString pid
        pid := some pid })

/-- Sensitive-directory pattern on a file path. -/
def isSensitivePath (path : String) : Bool :=
  strStartsWith path "/etc/" || strStartsWith path "/root/" ||
  containsSub path "System32" || containsSub path "/.ssh/"

/-- FILE_SENSITIVE: sensitive path accessed and not in `allow_paths`. -/
def evalFileSensitive (t : Telemetry) (p : Policy) : List Indicator :=
  (t.file_access_logs.filter (fun f =>
      isSensitivePath f.file_path && !(p.allow_paths.contains f.file_path))).map
    (fun f =>
      { rule_id := .FILE_SENSITIVE, severity := .medium
        description := "Sensitive directory access: " ++ f.file_path
        discriminant := f.file_path
        pid := some f.process_id })

/-- All seven evaluators composed in a fixed order (spec section 4.1). -/
def evalRules (t : Telemetry) (p : Policy) : List Indicator :=
  evalProcScript t p ++ evalNetAdminPort t p ++ evalNetLargeXfer t p ++
  evalSuspDomain t p ++ evalProcHighNet t p ++ evalFileMass t p ++
  evalFileSensitive t p

/-! ## Deduplicator

Modelled from the spec: section 4.2. A fingerprint is (device id, rule id,
discriminating attribute); the dedupe table maps fingerprints to last-seen
times (integer minutes). -/

/-- Dedupe fingerprint: device, rule and the rule's discriminating attribute. -/
structure Fingerprint where
  device_id : String
  rule_id : RuleId
  discriminant : String
deriving DecidableEq

/-- The engine-internal dedupe table: fingerprint to last-seen time. -/
abbrev DedupeTable := List (Fingerprint × Int)

/-- Last-seen time recorded for a fingerprint, if any. -/
def lookupFp : DedupeTable → Fingerprint → Option Int
  | [], _ => none
  | (fp', ts) :: rest, fp => if fp' = fp then some ts else lookupFp rest fp

/-- Record/refresh the last-seen time of a fingerprint. -/
def updateFp : DedupeTable → Fingerprint → Int → DedupeTable
  | [], fp, now => [(fp, now)]
  | (fp', ts) :: rest, fp, now =>
    if fp' = fp then (fp, now) :: rest else (fp', ts) :: updateFp rest fp now

/-- The fingerprint of an indicator for a given device. -/
def fpOf (dev : String) (i : Indicator) : Fingerprint :=
  ⟨dev, i.rule_id, i.discriminant⟩

/-- One deduplication step: suppress a repeat within the window (recording a
timeline suppression event and refreshing last-seen), else pass the indicator
through with a trigger event and record/refresh last-seen. -/
def dedupeStep (p : Policy) (dev : String) (now : Int)
    (st : DedupeTable × List Indicator × List TimelineEvent) (ind : Indicator) :
    DedupeTable × List Indicator × List TimelineEvent :=
  match lookupFp st.1 (fpOf dev ind) with
  | some last =>
    if now - last < p.dedupe_window_minutes then
      (updateFp st.1 (fpOf dev ind) now, st.2.1,
       st.2.2 ++ [⟨now, "suppressed duplicate: " ++ ind.description⟩])
    else
      (updateFp st.1 (fpOf dev ind) now, st.2.1 ++ [ind],
       st.2.2 ++ [⟨now, "indicator triggered: " ++ ind.description⟩])
  | none =>
    (updateFp st.1 (fpOf dev ind) now, st.2.1 ++ [ind],
     st.2.2 ++ [⟨now, "indicator triggered: " ++ ind.description⟩])

/-- Deduplicate a batch of raw indicators, returning the updated table, the
surviving indicators, and the timeline events (triggers and suppressions). -/
def dedupeAll (p : Policy) (dev : String) (now : Int) (table : DedupeTable)
    (inds : List Indicator) : DedupeTable × List Indicator × List TimelineEvent :=
  inds.foldl (dedupeStep p dev now) (table, [], [])

/-! ## Aggregator / scorer

Modelled from the spec: section 4.3: sum severity weights, compress with the
saturating function `10 * sum / (sum + k)` capped at 10; confidence is the
fraction of the five telemetry dimensions that are non-empty. -/

/-- The tunable saturation constant k of the score compression. -/
def saturationK : ℚ := 5

/-- Sum of severity weights over a list of indicators. -/
def weightSum (inds : List Indicator) : Nat :=
  (inds.map (fun i => i.severity.weight)).sum

/-- Saturating compression of a weight sum into the 0-10 range. -/
def compress (w : Nat) : ℚ := min 10 (10 * (w : ℚ) / ((w : ℚ) + saturationK))

/-- Risk score of the surviving indicators. -/
def riskScore (inds : List Indicator) : ℚ := compress (weightSum inds)

/-- Number of the five telemetry dimensions that are non-empty. -/
def dimsNonEmpty (t : Telemetry) : Nat :=
  (if t.network_connections.isEmpty then 0 else 1) +
  (if t.process_list.isEmpty then 0 else 1) +
  (if t.file_access_logs.isEmpty then 0 else 1) +
  (if t.system_metrics.isEmpty then 0 else 1) +
  (if t.security_events.isEmpty then 0 else 1)

/-- Confidence: fraction of the five data dimensions that are non-empty. -/
def confidence (t : Telemetry) : ℚ := (dimsNonEmpty t : ℚ) / 5

/-! ## Action simulator

Modelled from the spec: section 4.4: for rules in {PROC_SCRIPT, FILE_MASS,
PROC_HIGH_NET} with severity at least high, emit one simulated action
(suspend_io for FILE_MASS, kill_process for the process-based rules). -/

/-- The fixed subset of rules that can produce simulated actions. -/
def actionRules : List RuleId := [.PROC_SCRIPT, .FILE_MASS, .PROC_HIGH_NET]

/-- Map qualifying indicators to simulated enforcement directives. -/
def simulateActions (inds : List Indicator) : List BlockedAction :=
  (inds.filter (fun i => actionRules.contains i.rule_id && i.severity.atLeastHigh)).map
    (fun i =>
      if i.rule_id = .FILE_MASS then
        { action := .suspend_io, pid := i.pid
          reason := "Simulated I/O suspension: " ++ i.description }
      else
        { action := .kill_process, pid := i.pid
          reason := "Simulated process kill: " ++ i.description })

/-! ## Validation and the analysis entry point

Modelled from the spec: section 7: negative byte counts in telemetry and
negative policy thresholds fail the call with a validation error identifying
the offending field; no partial result is returned. -/

/-- A validation error naming the offending field. -/
structure ValidationError where
  field : String
  message : String
deriving DecidableEq

/-- Structural validation of telemetry (negative byte counts). -/
def validateTelemetry (t : Telemetry) : Option ValidationError :=
  if t.network_connections.any (fun c => c.bytes_transferred < 0) then
    some ⟨"network_connections.bytes_transferred", "negative byte count"⟩
  else none

/-- Defensive validation of a policy snapshot (non-negative thresholds). -/
def validatePolicy (p : Policy) : Option ValidationError :=
  if p.high_volume_threshold < 0 then
    some ⟨"high_volume_threshold", "negative threshold"⟩
  else if p.process_conn_threshold < 0 then
    some ⟨"process_conn_threshold", "negative threshold"⟩
  else if p.dedupe_window_minutes < 0 then
    some ⟨"dedupe_window_minutes", "negative dedupe window"⟩
  else if p.alert_risk_threshold < 0 then
    some ⟨"alert_risk_threshold", "negative threshold"⟩
  else none

/-- The analysis pipeline after validation: evaluate all rules, deduplicate,
score, simulate actions, and assemble the result and updated dedupe table
(spec section 2's control flow and section 4.3's alert/suppressed flags). -/
def analyzeCore (t : Telemetry) (p : Policy) (table : DedupeTable) (now : Int) :
    AnalysisResult × DedupeTable :=
  let raw := evalRules t p
  let ded := dedupeAll p t.device_id now table raw
  let surviving := ded.2.1
  let score := riskScore surviving
  let actions := simulateActions surviving
  ({ risk_score := score
     confidence_level := confidence t
     indicators := surviving
     timeline := ded.2.2 ++ actions.map (fun a => ⟨now, "simulated action: " ++ a.reason⟩)
     blocked_actions := actions
     recommendations := surviving.map (fun i => "Investigate: " ++ i.description)
     alert := decide (p.alert_risk_threshold ≤ score) && !surviving.isEmpty
     suppressed := !raw.isEmpty && surviving.isEmpty
     analyzer_version := "1.0" }, ded.1)

/-- The analyzer entry point: validate, then run the pipeline; a validation
failure returns an error and no partial result (spec sections 6 and 7). -/
def analyze (t : Telemetry) (p : Policy) (table : DedupeTable) (now : Int) :
    Except ValidationError (AnalysisResult × DedupeTable) :=
  match validateTelemetry t with
  | some e => .error e
  | none =>
    match validatePolicy p with
    | some e => .error e
    | none => .ok (analyzeCore t p table now)

/-! ## Concrete inputs from the sources -/

/-- The sample telemetry of `Dashboard.jsx` (`sampleTelemetry`, lines 73-86);
the wall-clock ISO timestamp is immaterial to the analysis. -/
def dashSampleTelemetry : Telemetry :=
  { device_id := "DASH-QUICK-DEVICE"
    timestamp := "2025-01-01T00:00:00.000Z"
    network_connections := [
      { source_ip := "192.168.1.10", destination_ip := "203.0.113.10",
        destination_port := 443, protocol := "TCP",
        bytes_transferred := 150000000, destination_domain := some "temp-malicious.biz" },
      { source_ip := "192.168.1.10", destination_ip := "192.168.1.5",
        destination_port := 22, protocol := "TCP",
        bytes_transferred := 2000, destination_domain := none }]
    process_list := [
      { name := "powershell.exe", pid := 1234
        command_line := "powershell -ExecutionPolicy Bypass -enc AAA"
        network_connections := 15 }]
    file_access_logs := []
    system_metrics := [("cpu_usage", 704/10)]
    security_events := [] }

/-- Modelled from the spec: the default policy around the documented
thresholds — large-transfer threshold 10,000,000 bytes, process-connection
threshold 10, a default alert risk threshold of 6, and a one-hour dedupe
window; allow-lists empty. -/
def defaultPolicy : Policy :=
  { allow_domains := []
    allow_processes := []
    allow_paths := []
    high_volume_threshold := 10000000
    process_conn_threshold := 10
    dedupe_window_minutes := 60
    alert_risk_threshold := 6 }

/-- Telemetry with every sequence empty (the empty end-to-end scenario). -/
def emptyTelemetry : Telemetry :=
  { device_id := "EMPTY-DEVICE"
    timestamp := "2025-01-01T00:00:00.000Z"
    network_connections := []
    process_list := []
    file_access_logs := []
    system_metrics := []
    security_events := [] }

/-! ## Frontend embeddings (Dashboard.jsx) -/

/-- A stored simulation record as the dashboard consumes it; `risk_score`
is `none` when the stored value is not coercible to a number. -/
structure SimRecord where
  risk_score : Option ℚ
deriving DecidableEq

/-- `Number(s.risk_score) || 0` of `Dashboard.jsx` line 45: a value that is
not coercible to a number (NaN) contributes 0. -/
def riskNum (r : Option ℚ) : ℚ := r.getD 0

/-- The `avgRisk` memo of `Dashboard.jsx` lines 41-47: 0 for an empty list,
else the reduce-sum of the first `min 10 length` records divided by that
count. -/
def avgRisk (sims : List SimRecord) : ℚ :=
  if sims.length = 0 then 0
  else ((sims.take (min 10 sims.length)).foldl (fun acc s => acc + riskNum s.risk_score) 0) /
    ((min 10 sims.length : Nat) : ℚ)

/-- The arithmetic mean of the risk scores of the first `min 10 length`
records (non-coercible values counted as 0), stated the way the claim reads:
a sum over the slice divided by the slice length. -/
def avgRiskSpec (sims : List SimRecord) : ℚ :=
  ((sims.take (min 10 sims.length)).map (fun s => riskNum s.risk_score)).sum /
    ((min 10 sims.length : Nat) : ℚ)

/-- A JavaScript runtime error raised during rendering. -/
inductive JsError
  | referenceError (name : String)
deriving DecidableEq

/-- Strict-mode variable read: resolving an identifier that is not in scope
raises a `ReferenceError` naming it. -/
def readVar (scope : List String) (x : String) : Except JsError Unit :=
  if scope.contains x then .ok () else .error (.referenceError x)

/-- Identifiers in scope in the body of the `Dashboard` component
(`Dashboard.jsx`): module imports and module-level constants, the component's
prop, and every binding the component body declares (`useState` pairs,
`useMemo` results, helper functions). Neither `selected` nor `setSelected`
is ever declared (there is no `useState` for them). -/
def dashboardScope : List String :=
  ["React", "useEffect", "useMemo", "useState", "getApi", "bins", "SimulationDetails",
   "onQuickRunComplete", "api", "scenarios", "setScenarios", "sims", "setSims",
   "loading", "setLoading", "toast", "setToast", "load", "last24h", "avgRisk",
   "riskDist", "latest", "riskGaugeStyle", "showToast", "sampleTelemetry", "runQuick"]

/-- Identifiers evaluated while rendering the `Dashboard` JSX return
expression, in source order (`Dashboard.jsx` lines 115-214). Reads inside
event-handler closures (such as the `setSelected` call of line 200) are not
evaluated at render time, but the guard `{selected && <SimulationDetails/>}`
of line 212 reads `selected` unconditionally on every render. -/
def dashboardRenderReads : List String :=
  ["loading", "runQuick", "scenarios", "sims", "last24h", "avgRisk", "latest",
   "riskGaugeStyle", "riskDist", "bins", "selected", "toast"]

/-- Rendering the `Dashboard` component: each identifier the JSX reads is
resolved against the component scope in order; the first unresolved
identifier aborts the render with a `ReferenceError`. -/
def renderDashboard (scope : List String) : Except JsError Unit :=
  dashboardRenderReads.foldlM (fun _ x => readVar scope x) ()

end CyberSim

namespace CyberSim

/-! ## Claim theorems -/

/-- C1: on the repository's sample telemetry (one connection with
150,000,000 bytes transferred against the 10,000,000 threshold, one
`powershell.exe` process with an encoded-bypass command line and 15
connections against the threshold 10), the analysis succeeds and its result
contains indicators NET_LARGE_XFER and PROC_SCRIPT, has risk score strictly
above 5, has `alert = true` under the default alert threshold 6, and
contains a simulated `kill_process` blocked action for pid 1234. -/
theorem sample_end_to_end :
    analyze dashSampleTelemetry defaultPolicy [] 0 =
      .ok (analyzeCore dashSampleTelemetry defaultPolicy [] 0) ∧
    ((analyzeCore dashSampleTelemetry defaultPolicy [] 0).1.indicators.any
        (fun i => i.rule_id = .NET_LARGE_XFER)) = true ∧
    ((analyzeCore dashSampleTelemetry defaultPolicy [] 0).1.indicators.any
        (fun i => i.rule_id = .PROC_SCRIPT)) = true ∧
    5 < (analyzeCore dashSampleTelemetry defaultPolicy [] 0).1.risk_score ∧
    (analyzeCore dashSampleTelemetry defaultPolicy [] 0).1.alert = true ∧
    ((analyzeCore dashSampleTelemetry defaultPolicy [] 0).1.blocked_actions.any
        (fun b => b.action = .kill_process && b.pid = some 1234 && b.simulated)) = true := by
  have hW : weightSum ((analyzeCore dashSampleTelemetry defaultPolicy [] 0).1.indicators) = 21 := by
    decide
  refine ⟨rfl, by decide, by decide, ?_, ?_, by decide⟩
  · have hr : (analyzeCore dashSampleTelemetry defaultPolicy [] 0).1.risk_score
        = compress (weightSum ((analyzeCore dashSampleTelemetry defaultPolicy [] 0).1.indicators)) :=
      rfl
    rw [hr, hW]
    unfold compress saturationK
    rw [min_eq_right (by norm_num)]
    norm_num
  · show (decide (defaultPolicy.alert_risk_threshold ≤
        compress (weightSum ((analyzeCore dashSampleTelemetry defaultPolicy [] 0).1.indicators))) &&
        !((analyzeCore dashSampleTelemetry defaultPolicy [] 0).1.indicators).isEmpty) = true
    rw [hW]
    simp only [Bool.and_eq_true, decide_eq_true_eq]
    refine ⟨?_, by decide⟩
    unfold compress saturationK defaultPolicy
    rw [min_eq_right (by norm_num)]
    norm_num

/-- C2: rendering the Dashboard component always aborts with a
`ReferenceError` on `selected`: the JSX reads `selected` (and its click
handlers call `setSelected`) but neither identifier is declared anywhere in
the component, so the dashboard view can never render successfully. -/
theorem dashboard_render_reference_error :
    renderDashboard dashboardScope = .error (.referenceError "selected") ∧
    "selected" ∉ dashboardScope ∧ "setSelected" ∉ dashboardScope :=
  ⟨rfl, by decide, by decide⟩

/-- Folding addition of mapped values equals the initial value plus the sum. -/
theorem foldl_add_sum (f : SimRecord → ℚ) :
    ∀ (l : List SimRecord) (a : ℚ),
      l.foldl (fun acc s => acc + f s) a = a + (l.map f).sum := by
  intro l
  induction l with
  | nil => intro a; simp
  | cons x xs ih =>
    intro a
    simp only [List.foldl_cons, List.map_cons, List.sum_cons, ih]
    ring

/-- C10: the dashboard's displayed average risk equals, for a non-empty
simulation list, the arithmetic mean of the risk scores of the first
`min 10 length` records with non-coercible scores contributing 0; and it
equals 0 for the empty list. -/
theorem avgRisk_correct (sims : List SimRecord) :
    (sims ≠ [] → avgRisk sims = avgRiskSpec sims) ∧ avgRisk [] = 0 := by
  constructor
  · intro hne
    unfold avgRisk avgRiskSpec
    rw [if_neg (by simpa [List.length_eq_zero] using hne)]
    rw [foldl_add_sum (fun s => riskNum s.risk_score) (sims.take (min 10 sims.length)) 0]
    rw [zero_add]
  · rfl

/-- Witness for C10 at a concrete one-element list. -/
theorem avgRisk_correct_witness :
    avgRisk [⟨some 4⟩] = avgRiskSpec [⟨some 4⟩] ∧ avgRisk [] = 0 :=
  ⟨(avgRisk_correct [⟨some 4⟩]).1 (List.cons_ne_nil _ _), (avgRisk_correct []).2⟩

/-- An arbitrary critical-severity indicator used as a concrete witness. -/
def critInd : Indicator :=
  { rule_id := .FILE_MASS, severity := .critical
    description := "witness", discriminant := "w", pid := none }

/-- The saturating compression is monotone in the weight sum. -/
theorem compress_mono {a b : Nat} (hab : a ≤ b) : compress a ≤ compress b := by
  unfold compress saturationK
  have hcast : (a : ℚ) ≤ (b : ℚ) := by exact_mod_cast hab
  have ha : (0 : ℚ) ≤ (a : ℚ) := by positivity
  have hb : (0 : ℚ) ≤ (b : ℚ) := by positivity
  refine min_le_min le_rfl ?_
  rw [div_le_div_iff₀ (by positivity) (by positivity)]
  ring_nf
  nlinarith

/-- C5: the risk score is the saturating compression `min 10 (10*sum/(sum+k))`
of the severity weight sum (low=1, medium=3, high=6, critical=9), lies in
[0, 10], never decreases when the weight sum grows, and a single critical
indicator yields a high (at least 6) but not maximal score. -/
theorem risk_score_properties (inds : List Indicator) :
    riskScore inds =
      min 10 (10 * (weightSum inds : ℚ) / ((weightSum inds : ℚ) + saturationK)) ∧
    0 ≤ riskScore inds ∧ riskScore inds ≤ 10 ∧
    (∀ inds' : List Indicator, weightSum inds ≤ weightSum inds' →
      riskScore inds ≤ riskScore inds') ∧
    (∀ i : Indicator, i.severity = .critical →
      6 ≤ riskScore [i] ∧ riskScore [i] < 10) := by
  refine ⟨rfl, ?_, ?_, ?_, ?_⟩
  · unfold riskScore compress saturationK
    refine le_min (by norm_num) ?_
    have h : (0 : ℚ) ≤ (weightSum inds : ℚ) := by positivity
    have h5 : (0 : ℚ) < (weightSum inds : ℚ) + 5 := by positivity
    exact div_nonneg (by positivity) h5.le
  · exact min_le_left _ _
  · intro inds' hle
    exact compress_mono hle
  · intro i hcrit
    have hw : weightSum [i] = 9 := by
      simp [weightSum, hcrit, Severity.weight]
    unfold riskScore
    rw [hw]
    unfold compress saturationK
    rw [min_eq_right (by norm_num)]
    norm_num

/-- Witness for C5 at concrete indicator lists. -/
theorem risk_score_properties_witness :
    riskScore [] ≤ riskScore [critInd] ∧
    6 ≤ riskScore [critInd] ∧ riskScore [critInd] < 10 :=
  ⟨(risk_score_properties []).2.2.2.1 [critInd] (by decide),
   ((risk_score_properties []).2.2.2.2 critInd rfl).1,
   ((risk_score_properties []).2.2.2.2 critInd rfl).2⟩

/-- Small telemetry with every one of the five dimensions populated. -/
def fullTelemetry : Telemetry :=
  { device_id := "FULL-DEVICE"
    timestamp := "2025-01-01T00:00:00.000Z"
    network_connections := [
      { source_ip := "192.168.1.2", destination_ip := "198.51.100.7",
        destination_port := 80, protocol := "TCP",
        bytes_transferred := 10, destination_domain := none }]
    process_list := [
      { name := "editor", pid := 7, command_line := "editor notes.txt"
        network_connections := 0 }]
    file_access_logs := [
      { process_id := 7, file_path := "/home/u/notes.txt", operation := "read"
        timestamp := "2025-01-01T00:00:00.000Z" }]
    system_metrics := [("cpu_usage", 12)]
    security_events := ["prior-alert"] }

/-- The coverage count never exceeds the five dimensions. -/
theorem dimsNonEmpty_le_five (t : Telemetry) : dimsNonEmpty t ≤ 5 := by
  unfold dimsNonEmpty
  split_ifs <;> decide

/-- C6: confidence is the fraction of the five telemetry dimensions that are
non-empty, always lies in [0, 1], is exactly 1 when all five dimensions are
populated; fully empty telemetry yields confidence 0 (the minimum) and zero
indicators; and confidence never influences the risk score, which is a
function of the surviving indicators alone. -/
theorem confidence_properties (t : Telemetry) :
    0 ≤ confidence t ∧ confidence t ≤ 1 ∧
    confidence t = (dimsNonEmpty t : ℚ) / 5 ∧
    (t.network_connections ≠ [] → t.process_list ≠ [] → t.file_access_logs ≠ [] →
      t.system_metrics ≠ [] → t.security_events ≠ [] → confidence t = 1) ∧
    (t.network_connections = [] → t.process_list = [] → t.file_access_logs = [] →
      t.system_metrics = [] → t.security_events = [] →
      confidence t = 0 ∧ ∀ p : Policy, evalRules t p = []) ∧
    (∀ (p : Policy) (table : DedupeTable) (now : Int),
      (analyzeCore t p table now).1.risk_score =
        riskScore (analyzeCore t p table now).1.indicators) := by
  refine ⟨?_, ?_, rfl, ?_, ?_, ?_⟩
  · unfold confidence
    positivity
  · unfold confidence
    rw [div_le_one (by norm_num)]
    exact_mod_cast dimsNonEmpty_le_five t
  · intro h1 h2 h3 h4 h5
    unfold confidence dimsNonEmpty
    rw [List.isEmpty_eq_false.mpr h1, List.isEmpty_eq_false.mpr h2,
      List.isEmpty_eq_false.mpr h3, List.isEmpty_eq_false.mpr h4,
      List.isEmpty_eq_false.mpr h5]
    norm_num
  · intro h1 h2 h3 h4 h5
    constructor
    · unfold confidence dimsNonEmpty
      rw [h1, h2, h3, h4, h5]
      norm_num
    · intro p
      unfold evalRules evalProcScript evalNetAdminPort evalNetLargeXfer
        evalSuspDomain evalProcHighNet evalFileMass evalFileSensitive
      rw [h1, h2, h3]
      simp
  · intro p table now
    rfl

/-- Witness for C6 at concrete full and empty telemetry values. -/
theorem confidence_properties_witness :
    confidence fullTelemetry = 1 ∧
    confidence emptyTelemetry = 0 ∧ evalRules emptyTelemetry defaultPolicy = [] := by
  refine ⟨(confidence_properties fullTelemetry).2.2.2.1 (by decide) (by decide) (by decide)
    (by decide) (by decide), ?_, ?_⟩
  · exact ((confidence_properties emptyTelemetry).2.2.2.2.1 rfl rfl rfl rfl rfl).1
  · exact ((confidence_properties emptyTelemetry).2.2.2.2.1 rfl rfl rfl rfl rfl).2 defaultPolicy

/-- C3: for every successful analysis call, `alert` is true iff the risk
score reaches `policy.alert_risk_threshold` and at least one indicator
survived deduplication, and `suppressed` is true iff raw indicators existed
but every one of them was deduplicated away. -/
theorem alert_suppressed_iff (t : Telemetry) (p : Policy) (table : DedupeTable)
    (now : Int) (r : AnalysisResult) (table' : DedupeTable)
    (h : analyze t p table now = .ok (r, table')) :
    (r.alert = true ↔ p.alert_risk_threshold ≤ r.risk_score ∧ r.indicators ≠ []) ∧
    (r.suppressed = true ↔ evalRules t p ≠ [] ∧ r.indicators = []) := by
  unfold analyze at h
  cases hv : validateTelemetry t with
  | some e => rw [hv] at h; cases h
  | none =>
    rw [hv] at h
    cases hp : validatePolicy p with
    | some e => rw [hp] at h; cases h
    | none =>
      rw [hp] at h
      injection h with h'
      have hr : r = (analyzeCore t p table now).1 := by rw [h']
      subst hr
      constructor
      · show (decide (p.alert_risk_threshold ≤
            riskScore (dedupeAll p t.device_id now table (evalRules t p)).2.1) &&
            !((dedupeAll p t.device_id now table (evalRules t p)).2.1).isEmpty) = true ↔ _
        simp only [Bool.and_eq_true, decide_eq_true_eq, Bool.not_eq_true',
          List.isEmpty_eq_false]
        rfl
      · show (!(evalRules t p).isEmpty &&
            ((dedupeAll p t.device_id now table (evalRules t p)).2.1).isEmpty) = true ↔ _
        simp only [Bool.and_eq_true, Bool.not_eq_true', List.isEmpty_eq_false,
          List.isEmpty_iff]
        rfl

/-- Witness for C3 at a concrete successful call on empty telemetry. -/
theorem alert_suppressed_iff_witness :
    ((analyzeCore emptyTelemetry defaultPolicy [] 0).1.alert = true ↔
      defaultPolicy.alert_risk_threshold ≤
        (analyzeCore emptyTelemetry defaultPolicy [] 0).1.risk_score ∧
      (analyzeCore emptyTelemetry defaultPolicy [] 0).1.indicators ≠ []) ∧
    ((analyzeCore emptyTelemetry defaultPolicy [] 0).1.suppressed = true ↔
      evalRules emptyTelemetry defaultPolicy ≠ [] ∧
      (analyzeCore emptyTelemetry defaultPolicy [] 0).1.indicators = []) :=
  alert_suppressed_iff emptyTelemetry defaultPolicy [] 0
    (analyzeCore emptyTelemetry defaultPolicy [] 0).1
    (analyzeCore emptyTelemetry defaultPolicy [] 0).2 rfl

/-- Telemetry with a structurally invalid (negative) byte count. -/
def badTelemetry : Telemetry :=
  { device_id := "BAD-DEVICE"
    timestamp := "2025-01-01T00:00:00.000Z"
    network_connections := [
      { source_ip := "192.168.1.3", destination_ip := "198.51.100.9",
        destination_port := 80, protocol := "TCP",
        bytes_transferred := -5, destination_domain := none }]
    process_list := []
    file_access_logs := []
    system_metrics := []
    security_events := [] }

/-- C9: telemetry containing a negative byte count makes the analysis call
fail with a validation error naming the offending field; a policy with any
negative threshold (large-transfer bytes, process connection count, dedupe
window, or alert risk threshold) likewise makes the call fail, with the
validator's cascade naming the first offending field; and no partial result
is ever produced: a call either fails with the error or returns the full
analysis result. -/
theorem validation_rejects (t : Telemetry) (p : Policy) (table : DedupeTable)
    (now : Int) :
    ((t.network_connections.any (fun c => c.bytes_transferred < 0)) = true →
      analyze t p table now =
        .error ⟨"network_connections.bytes_transferred", "negative byte count"⟩) ∧
    (validateTelemetry t = none →
      (p.high_volume_threshold < 0 →
        analyze t p table now =
          .error ⟨"high_volume_threshold", "negative threshold"⟩) ∧
      (0 ≤ p.high_volume_threshold → p.process_conn_threshold < 0 →
        analyze t p table now =
          .error ⟨"process_conn_threshold", "negative threshold"⟩) ∧
      (0 ≤ p.high_volume_threshold → 0 ≤ p.process_conn_threshold →
        p.dedupe_window_minutes < 0 →
        analyze t p table now =
          .error ⟨"dedupe_window_minutes", "negative dedupe window"⟩) ∧
      (0 ≤ p.high_volume_threshold → 0 ≤ p.process_conn_threshold →
        0 ≤ p.dedupe_window_minutes → p.alert_risk_threshold < 0 →
        analyze t p table now =
          .error ⟨"alert_risk_threshold", "negative threshold"⟩)) ∧
    ((p.high_volume_threshold < 0 ∨ p.process_conn_threshold < 0 ∨
        p.dedupe_window_minutes < 0 ∨ p.alert_risk_threshold < 0) →
      ∃ e : ValidationError, analyze t p table now = .error e) ∧
    (validateTelemetry t = none → validatePolicy p = none →
      analyze t p table now = .ok (analyzeCore t p table now)) := by
  refine ⟨?_, ?_, ?_, ?_⟩
  · intro hneg
    unfold analyze validateTelemetry
    rw [if_pos hneg]
  · intro hv
    refine ⟨?_, ?_, ?_, ?_⟩
    · intro h1
      unfold analyze validatePolicy
      rw [hv, if_pos h1]
    · intro h1 h2
      unfold analyze validatePolicy
      rw [hv, if_neg (not_lt.mpr h1), if_pos h2]
    · intro h1 h2 h3
      unfold analyze validatePolicy
      rw [hv, if_neg (not_lt.mpr h1), if_neg (not_lt.mpr h2), if_pos h3]
    · intro h1 h2 h3 h4
      unfold analyze validatePolicy
      rw [hv, if_neg (not_lt.mpr h1), if_neg (not_lt.mpr h2),
        if_neg (not_lt.mpr h3), if_pos h4]
  · intro hneg
    cases hv : validateTelemetry t with
    | some e =>
      exact ⟨e, by unfold analyze; rw [hv]⟩
    | none =>
      by_cases h1 : p.high_volume_threshold < 0
      · exact ⟨⟨"high_volume_threshold", "negative threshold"⟩, by
          unfold analyze validatePolicy
          rw [hv, if_pos h1]⟩
      · by_cases h2 : p.process_conn_threshold < 0
        · exact ⟨⟨"process_conn_threshold", "negative threshold"⟩, by
            unfold analyze validatePolicy
            rw [hv, if_neg h1, if_pos h2]⟩
        · by_cases h3 : p.dedupe_window_minutes < 0
          · exact ⟨⟨"dedupe_window_minutes", "negative dedupe window"⟩, by
              unfold analyze validatePolicy
              rw [hv, if_neg h1, if_neg h2, if_pos h3]⟩
          · by_cases h4 : p.alert_risk_threshold < 0
            · exact ⟨⟨"alert_risk_threshold", "negative threshold"⟩, by
                unfold analyze validatePolicy
                rw [hv, if_neg h1, if_neg h2, if_neg h3, if_pos h4]⟩
            · rcases hneg with h | h | h | h
              · exact absurd h h1
              · exact absurd h h2
              · exact absurd h h3
              · exact absurd h h4
  · intro hv hp
    unfold analyze
    rw [hv, hp]

/-- The default policy with a negative process-connection threshold. -/
def badPolicy : Policy :=
  { defaultPolicy with process_conn_threshold := -1 }

/-- Witness for C9: the negative-byte telemetry is rejected with the named
field, a policy with a negative process-connection threshold is rejected
with that field named (and in particular fails), and a well-formed call
returns the full result. -/
theorem validation_rejects_witness :
    analyze badTelemetry defaultPolicy [] 0 =
      .error ⟨"network_connections.bytes_transferred", "negative byte count"⟩ ∧
    analyze emptyTelemetry badPolicy [] 0 =
      .error ⟨"process_conn_threshold", "negative threshold"⟩ ∧
    (∃ e : ValidationError, analyze emptyTelemetry badPolicy [] 0 = .error e) ∧
    analyze emptyTelemetry defaultPolicy [] 0 =
      .ok (analyzeCore emptyTelemetry defaultPolicy [] 0) :=
  ⟨(validation_rejects badTelemetry defaultPolicy [] 0).1 (by decide),
   ((validation_rejects emptyTelemetry badPolicy [] 0).2.1 rfl).2.1
     (by decide) (by decide),
   (validation_rejects emptyTelemetry badPolicy [] 0).2.2.1
     (Or.inr (Or.inl (by decide))),
   (validation_rejects emptyTelemetry defaultPolicy [] 0).2.2.2 rfl rfl⟩

/-- A dedupe step whose fingerprint was seen within the window suppresses the
indicator, records a suppression event and refreshes last-seen. -/
theorem dedupeStep_hit (p : Policy) (dev : String) (now : Int)
    (st : DedupeTable × List Indicator × List TimelineEvent) (ind : Indicator) (last : Int)
    (h : lookupFp st.1 (fpOf dev ind) = some last)
    (hlt : now - last < p.dedupe_window_minutes) :
    dedupeStep p dev now st ind =
      (updateFp st.1 (fpOf dev ind) now, st.2.1,
       st.2.2 ++ [⟨now, "suppressed duplicate: " ++ ind.description⟩]) := by
  unfold dedupeStep
  rw [h]
  dsimp only
  rw [if_pos hlt]

/-- A dedupe step whose fingerprint was last seen outside the window passes
the indicator through and refreshes last-seen. -/
theorem dedupeStep_stale (p : Policy) (dev : String) (now : Int)
    (st : DedupeTable × List Indicator × List TimelineEvent) (ind : Indicator) (last : Int)
    (h : lookupFp st.1 (fpOf dev ind) = some last)
    (hge : ¬ now - last < p.dedupe_window_minutes) :
    dedupeStep p dev now st ind =
      (updateFp st.1 (fpOf dev ind) now, st.2.1 ++ [ind],
       st.2.2 ++ [⟨now, "indicator triggered: " ++ ind.description⟩]) := by
  unfold dedupeStep
  rw [h]
  dsimp only
  rw [if_neg hge]

/-- A dedupe step whose fingerprint is unseen passes the indicator through
and records last-seen. -/
theorem dedupeStep_miss (p : Policy) (dev : String) (now : Int)
    (st : DedupeTable × List Indicator × List TimelineEvent) (ind : Indicator)
    (h : lookupFp st.1 (fpOf dev ind) = none) :
    dedupeStep p dev now st ind =
      (updateFp st.1 (fpOf dev ind) now, st.2.1 ++ [ind],
       st.2.2 ++ [⟨now, "indicator triggered: " ++ ind.description⟩]) := by
  unfold dedupeStep
  rw [h]

/-- C4: for two identical qualifying events for the same device, rule and
discriminant, the first is scored; a second occurrence within
`dedupe_window_minutes` is suppressed from the scoring set, leaves a
suppression event in the timeline and refreshes the fingerprint's last-seen
time to now; a second occurrence separated by at least the window is scored
as well; and an indicator with any different fingerprint (other rule or
device) is unaffected by the recorded entry. -/
theorem dedupe_window_correct (p : Policy) (dev dev' : String) (i j : Indicator)
    (t1 t2 : Int) :
    (dedupeAll p dev t1 [] [i]).2.1 = [i] ∧
    (t2 - t1 < p.dedupe_window_minutes →
      (dedupeAll p dev t2 (dedupeAll p dev t1 [] [i]).1 [i]).2.1 = [] ∧
      (dedupeAll p dev t2 (dedupeAll p dev t1 [] [i]).1 [i]).2.2 =
        [⟨t2, "suppressed duplicate: " ++ i.description⟩] ∧
      lookupFp (dedupeAll p dev t2 (dedupeAll p dev t1 [] [i]).1 [i]).1 (fpOf dev i) =
        some t2) ∧
    (p.dedupe_window_minutes ≤ t2 - t1 →
      (dedupeAll p dev t2 (dedupeAll p dev t1 [] [i]).1 [i]).2.1 = [i]) ∧
    (fpOf dev' j ≠ fpOf dev i →
      (dedupeAll p dev' t2 (dedupeAll p dev t1 [] [i]).1 [j]).2.1 = [j]) := by
  have hfirst : dedupeAll p dev t1 [] [i] =
      ([(fpOf dev i, t1)], [i], [⟨t1, "indicator triggered: " ++ i.description⟩]) := rfl
  have hlook : lookupFp [(fpOf dev i, t1)] (fpOf dev i) = some t1 := by
    simp [lookupFp]
  have hsecond : ∀ now : Int, dedupeAll p dev now [(fpOf dev i, t1)] [i] =
      dedupeStep p dev now ([(fpOf dev i, t1)], [], []) i := fun _ => rfl
  refine ⟨by rw [hfirst], ?_, ?_, ?_⟩
  · intro hlt
    rw [hfirst, hsecond, dedupeStep_hit p dev t2 _ i t1 hlook hlt]
    refine ⟨rfl, rfl, ?_⟩
    show lookupFp (updateFp [(fpOf dev i, t1)] (fpOf dev i) t2) (fpOf dev i) = some t2
    simp [updateFp, lookupFp]
  · intro hge
    rw [hfirst, hsecond, dedupeStep_stale p dev t2 _ i t1 hlook (by omega)]
    rfl
  · intro hne
    rw [hfirst]
    have hstep : dedupeAll p dev' t2 [(fpOf dev i, t1)] [j] =
        dedupeStep p dev' t2 ([(fpOf dev i, t1)], [], []) j := rfl
    rw [hstep, dedupeStep_miss p dev' t2 _ j (by simp [lookupFp, Ne.symm hne])]
    rfl

/-- An indicator with a rule id different from `critInd`'s. -/
def otherInd : Indicator :=
  { rule_id := .NET_LARGE_XFER, severity := .high
    description := "witness2", discriminant := "w", pid := none }

/-- Witness for C4 at concrete times 0 and 30 against a 60-minute window. -/
theorem dedupe_window_correct_witness :
    (dedupeAll defaultPolicy "d" 0 [] [critInd]).2.1 = [critInd] ∧
    (dedupeAll defaultPolicy "d" 30 (dedupeAll defaultPolicy "d" 0 [] [critInd]).1
      [critInd]).2.1 = [] ∧
    (dedupeAll defaultPolicy "d" 90 (dedupeAll defaultPolicy "d" 0 [] [critInd]).1
      [critInd]).2.1 = [critInd] ∧
    (dedupeAll defaultPolicy "d2" 30 (dedupeAll defaultPolicy "d" 0 [] [critInd]).1
      [otherInd]).2.1 = [otherInd] :=
  ⟨(dedupe_window_correct defaultPolicy "d" "d2" critInd otherInd 0 30).1,
   ((dedupe_window_correct defaultPolicy "d" "d2" critInd otherInd 0 30).2.1
     (by decide)).1,
   (dedupe_window_correct defaultPolicy "d" "d2" critInd otherInd 0 90).2.2.1
     (by decide),
   (dedupe_window_correct defaultPolicy "d" "d2" critInd otherInd 0 30).2.2.2
     (by decide)⟩

/-- The fingerprint keys of a constant-timestamp table after one update. -/
def updKeys (fps : List Fingerprint) (fp : Fingerprint) : List Fingerprint :=
  if fp ∈ fps then fps else fps ++ [fp]

/-- Lookup in a table whose entries all carry the same timestamp. -/
theorem lookupFp_const (fps : List Fingerprint) (fp : Fingerprint) (now : Int) :
    lookupFp (fps.map (fun f => (f, now))) fp = if fp ∈ fps then some now else none := by
  induction fps with
  | nil => simp [lookupFp]
  | cons g gs ih =>
    simp only [List.map_cons, lookupFp]
    by_cases hg : g = fp
    · subst hg
      simp
    · rw [if_neg hg, ih]
      by_cases hmem : fp ∈ gs
      · rw [if_pos hmem, if_pos (List.mem_cons_of_mem g hmem)]
      · rw [if_neg hmem, if_neg (by simp only [List.mem_cons, hmem, or_false]; exact fun h => hg h.symm)]

/-- Updating a constant-timestamp table with the same timestamp keeps it
constant, extending the key list only on a miss. -/
theorem updateFp_const (fps : List Fingerprint) (fp : Fingerprint) (now : Int) :
    updateFp (fps.map (fun f => (f, now))) fp now = (updKeys fps fp).map (fun f => (f, now)) := by
  induction fps with
  | nil => simp [updateFp, updKeys]
  | cons g gs ih =>
    simp only [List.map_cons, updateFp, updKeys]
    by_cases hg : g = fp
    · subst hg
      rw [if_pos rfl, if_pos (List.mem_cons_self g gs)]
      simp
    · rw [if_neg hg, ih]
      unfold updKeys
      by_cases hmem : fp ∈ gs
      · rw [if_pos hmem, if_pos (List.mem_cons_of_mem g hmem)]
        simp
      · rw [if_neg hmem,
          if_neg (by simp only [List.mem_cons, hmem, or_false]; exact fun h => hg h.symm)]
        simp

/-- The surviving-indicator component of deduplication does not depend on
the wall-clock time when every table entry carries that same time: the
suppress/pass decision at each step is identical for `now1` and `now2`. -/
theorem dedupe_shift (p : Policy) (dev : String) (now1 now2 : Int) :
    ∀ (inds : List Indicator) (fps : List Fingerprint) (acc : List Indicator)
      (ev1 ev2 : List TimelineEvent),
    (inds.foldl (dedupeStep p dev now1) (fps.map (fun f => (f, now1)), acc, ev1)).2.1 =
    (inds.foldl (dedupeStep p dev now2) (fps.map (fun f => (f, now2)), acc, ev2)).2.1 := by
  intro inds
  induction inds with
  | nil => intro fps acc ev1 ev2; rfl
  | cons i rest ih =>
    intro fps acc ev1 ev2
    simp only [List.foldl_cons]
    by_cases hmem : fpOf dev i ∈ fps
    · have h1 : lookupFp (fps.map (fun f => (f, now1))) (fpOf dev i) = some now1 := by
        rw [lookupFp_const, if_pos hmem]
      have h2 : lookupFp (fps.map (fun f => (f, now2))) (fpOf dev i) = some now2 := by
        rw [lookupFp_const, if_pos hmem]
      by_cases hwin : (0 : Int) < p.dedupe_window_minutes
      · rw [dedupeStep_hit p dev now1 _ i now1 h1 (by omega),
            dedupeStep_hit p dev now2 _ i now2 h2 (by omega)]
        dsimp only
        rw [updateFp_const, updateFp_const]
        exact ih (updKeys fps (fpOf dev i)) acc _ _
      · rw [dedupeStep_stale p dev now1 _ i now1 h1 (by omega),
            dedupeStep_stale p dev now2 _ i now2 h2 (by omega)]
        dsimp only
        rw [updateFp_const, updateFp_const]
        exact ih (updKeys fps (fpOf dev i)) (acc ++ [i]) _ _
    · have h1 : lookupFp (fps.map (fun f => (f, now1))) (fpOf dev i) = none := by
        rw [lookupFp_const, if_neg hmem]
      have h2 : lookupFp (fps.map (fun f => (f, now2))) (fpOf dev i) = none := by
        rw [lookupFp_const, if_neg hmem]
      rw [dedupeStep_miss p dev now1 _ i h1, dedupeStep_miss p dev now2 _ i h2]
      dsimp only
      rw [updateFp_const, updateFp_const]
      exact ih (updKeys fps (fpOf dev i)) (acc ++ [i]) _ _

/-- C7: for a fixed telemetry and policy and an empty dedupe table, two
analysis runs at different wall-clock times yield identical results on every
field that is not wall-clock-derived: same surviving indicators, risk score,
confidence, alert and suppressed flags, blocked actions and recommendations
(evaluators have no randomness and no wall-clock-dependent branching). -/
theorem determinism (t : Telemetry) (p : Policy) (now1 now2 : Int) :
    (analyzeCore t p [] now1).1.indicators = (analyzeCore t p [] now2).1.indicators ∧
    (analyzeCore t p [] now1).1.risk_score = (analyzeCore t p [] now2).1.risk_score ∧
    (analyzeCore t p [] now1).1.confidence_level =
      (analyzeCore t p [] now2).1.confidence_level ∧
    (analyzeCore t p [] now1).1.alert = (analyzeCore t p [] now2).1.alert ∧
    (analyzeCore t p [] now1).1.suppressed = (analyzeCore t p [] now2).1.suppressed ∧
    (analyzeCore t p [] now1).1.blocked_actions =
      (analyzeCore t p [] now2).1.blocked_actions ∧
    (analyzeCore t p [] now1).1.recommendations =
      (analyzeCore t p [] now2).1.recommendations := by
  have hS : (dedupeAll p t.device_id now1 [] (evalRules t p)).2.1 =
      (dedupeAll p t.device_id now2 [] (evalRules t p)).2.1 :=
    dedupe_shift p t.device_id now1 now2 (evalRules t p) [] [] [] []
  refine ⟨hS, ?_, rfl, ?_, ?_, ?_, ?_⟩
  · show riskScore (dedupeAll p t.device_id now1 [] (evalRules t p)).2.1 =
        riskScore (dedupeAll p t.device_id now2 [] (evalRules t p)).2.1
    rw [hS]
  · show (decide (p.alert_risk_threshold ≤
        riskScore (dedupeAll p t.device_id now1 [] (evalRules t p)).2.1) &&
        !((dedupeAll p t.device_id now1 [] (evalRules t p)).2.1).isEmpty) =
      (decide (p.alert_risk_threshold ≤
        riskScore (dedupeAll p t.device_id now2 [] (evalRules t p)).2.1) &&
        !((dedupeAll p t.device_id now2 [] (evalRules t p)).2.1).isEmpty)
    rw [hS]
  · show (!(evalRules t p).isEmpty &&
        ((dedupeAll p t.device_id now1 [] (evalRules t p)).2.1).isEmpty) =
      (!(evalRules t p).isEmpty &&
        ((dedupeAll p t.device_id now2 [] (evalRules t p)).2.1).isEmpty)
    rw [hS]
  · show simulateActions (dedupeAll p t.device_id now1 [] (evalRules t p)).2.1 =
        simulateActions (dedupeAll p t.device_id now2 [] (evalRules t p)).2.1
    rw [hS]
  · show ((dedupeAll p t.device_id now1 [] (evalRules t p)).2.1).map
        (fun i => "Investigate: " ++ i.description) =
      ((dedupeAll p t.device_id now2 [] (evalRules t p)).2.1).map
        (fun i => "Investigate: " ++ i.description)
    rw [hS]

/-- C8: allow-list exemption: every NET_SUSP_DOMAIN indicator's domain is
outside `allow_domains`, every PROC_SCRIPT indicator's process name is
outside `allow_processes`, and every FILE_SENSITIVE indicator's path is
outside `allow_paths` — an allow-listed value never triggers its rule,
whatever the other conditions. -/
theorem allow_list_exemption (t : Telemetry) (p : Policy) :
    ((evalSuspDomain t p).all (fun i => !(p.allow_domains.contains i.discriminant))) = true ∧
    ((evalProcScript t p).all (fun i => !(p.allow_processes.contains i.discriminant))) = true ∧
    ((evalFileSensitive t p).all (fun i => !(p.allow_paths.contains i.discriminant))) = true := by
  refine ⟨?_, ?_, ?_⟩
  · rw [List.all_eq_true]
    intro i hi
    rw [evalSuspDomain] at hi
    rw [List.mem_map] at hi
    obtain ⟨c, hc, rfl⟩ := hi
    rw [List.mem_filter] at hc
    obtain ⟨-, hpred⟩ := hc
    cases hd : c.destination_domain with
    | none => rw [hd] at hpred; cases hpred
    | some d =>
      rw [hd] at hpred
      simp only [Bool.and_eq_true] at hpred
      simpa [hd] using hpred.2
  · rw [List.all_eq_true]
    intro i hi
    rw [evalProcScript] at hi
    rw [List.mem_map] at hi
    obtain ⟨pr, hc, rfl⟩ := hi
    rw [List.mem_filter] at hc
    obtain ⟨-, hpred⟩ := hc
    simp only [Bool.and_eq_true] at hpred
    simpa using hpred.2
  · rw [List.all_eq_true]
    intro i hi
    rw [evalFileSensitive] at hi
    rw [List.mem_map] at hi
    obtain ⟨f, hc, rfl⟩ := hi
    rw [List.mem_filter] at hc
    obtain ⟨-, hpred⟩ := hc
    simp only [Bool.and_eq_true] at hpred
    simpa using hpred.2

end CyberSim
